import Mathlib

/-!
Shallow embedding of the unit-conversion module of the biosignalsnotebooks
repository (`conversion.py`): the sensor raw-to-physical-unit converter
`raw_to_phy` and the time-axis generator `generate_time`, together with
theorems settling the specification claims about them.

Python semantics are modelled as follows: a raised `RuntimeError` (or a
`ZeroDivisionError`) becomes `Except.error` carrying the message; a function
that falls off the dispatch chain and returns the Python value `None` becomes
`Except.ok none`; a returned numpy array of floats becomes
`Except.ok (some (l : List ℝ))`.  Floating-point numbers are modelled as real
numbers.  The `resolution` argument can be a Python `int` or a non-`int`
number, so it is modelled by a dedicated sum type.
-/

/-- A Python numeric argument: either an `int` or some other (float) number.
`raw_to_phy` checks `isinstance(resolution, int)` and rejects the latter. -/
inductive PyNum where
  | int (z : ℤ)
  | float (r : ℝ)

namespace Conversion

/-- Embedding of `conversion.raw_to_phy(sensor, device, raw_signal, resolution,
option)`.  Cascading string dispatch on `sensor` and `opt`, device tables and
transfer formulas are transcribed from the source; the recursive calls used for
derived units ("K" via "Ohm", "C" via "K", "V" via "mV", "A" via "uA") are kept
as recursive calls, terminating because each one strictly lowers the rank of
the requested unit. -/
noncomputable def raw_to_phy (sensor device : String) (raw_signal : List ℝ)
    (resolution : PyNum) (opt : String) : Except String (Option (List ℝ)) :=
  match resolution with
  | PyNum.float _ =>
      Except.error "The specified resolution needs to be an integer."
  | PyNum.int res =>
    if sensor = "TEMP" then
      let vcc : ℝ := 3.0
      let available_dev_1 : List String :=
        ["bioplux", "bioplux_exp", "biosignalsplux", "rachimeter", "channeller",
         "swifter", "ddme_openbanplux"]
      let available_dev_2 : List String := ["bitalino", "bitalino_rev", "bitalino_riot"]
      if _h : opt = "Ohm" then
        if device ∈ available_dev_1 then
          Except.ok (some (raw_signal.map (fun x => (1e4 * x) / ((2:ℝ)^res - x))))
        else
          Except.error "The output specified unit does not have a defined transfer function for the used device."
      else if _h : opt = "K" then
        let a_0 : ℝ := 1.12764514e-3
        let a_1 : ℝ := 2.34282709e-4
        let a_2 : ℝ := 8.77303013e-8
        match raw_to_phy sensor device raw_signal (PyNum.int res) "Ohm" with
        | Except.error e => Except.error e
        | Except.ok none => Except.ok none
        | Except.ok (some ohm) =>
            Except.ok (some (ohm.map (fun r =>
              1 / (a_0 + a_1 * Real.log r + a_2 * (Real.log r) ^ 3))))
      else if _h : opt = "C" then
        if device ∈ available_dev_1 then
          match raw_to_phy sensor device raw_signal (PyNum.int res) "K" with
          | Except.error e => Except.error e
          | Except.ok none => Except.ok none
          | Except.ok (some kelvin) =>
              Except.ok (some (kelvin.map (fun k => k - 273.15)))
        else if device ∈ available_dev_2 then
          Except.ok (some (raw_signal.map (fun x => ((x / (2:ℝ)^res) * vcc - 0.5) * 100)))
        else
          Except.error "The output specified unit does not have a defined transfer function for the used device."
      else
        Except.error "The selected output unit is invalid for the sensor under analysis."
    else if sensor = "EMG" then
      let available_dev_1 : List String :=
        ["bioplux", "bioplux_exp", "biosignalsplux", "rachimeter", "channeller",
         "swifter", "ddme_openbanplux"]
      let available_dev_2 : List String := ["bitalino"]
      let available_dev_3 : List String := ["bitalino_rev", "bitalino_riot"]
      if _h : opt = "mV" then
        let vcc : ℝ := 3.0
        let offset_gain : Option (ℝ × ℝ) :=
          if device ∈ available_dev_1 then some (0.5, 1)
          else if device ∈ available_dev_2 then some (0.5, 1.008)
          else if device ∈ available_dev_3 then some (0.5, 1.009)
          else none
        match offset_gain with
        | none =>
            Except.error "The output specified unit does not have a defined transfer function for the used device."
        | some (offset, gain) =>
            Except.ok (some (raw_signal.map
              (fun x => (x * vcc / (2:ℝ)^res - vcc * offset) / gain)))
      else if _h : opt = "V" then
        match raw_to_phy sensor device raw_signal (PyNum.int res) "mV" with
        | Except.error e => Except.error e
        | Except.ok none => Except.ok none
        | Except.ok (some mv) => Except.ok (some (mv.map (fun v => v / 1000)))
      else
        Except.ok none
    else if sensor = "ECG" then
      let available_dev_1 : List String :=
        ["bioplux", "bioplux_exp", "biosignalsplux", "rachimeter", "channeller",
         "swifter", "ddme_openbanplux"]
      let available_dev_2 : List String := ["bitalino", "bitalino_rev", "bitalino_riot"]
      if _h : opt = "mV" then
        let vcc : ℝ := 3.0
        let offset_gain : Option (ℝ × ℝ) :=
          if device ∈ available_dev_1 then some (0.5, 1.019)
          else if device ∈ available_dev_2 then some (0.5, 1.1)
          else none
        match offset_gain with
        | none =>
            Except.error "The output specified unit does not have a defined transfer function for the used device."
        | some (offset, gain) =>
            Except.ok (some (raw_signal.map
              (fun x => (x * vcc / (2:ℝ)^res - vcc * offset) / gain)))
      else if _h : opt = "V" then
        match raw_to_phy sensor device raw_signal (PyNum.int res) "mV" with
        | Except.error e => Except.error e
        | Except.ok none => Except.ok none
        | Except.ok (some mv) => Except.ok (some (mv.map (fun v => v / 1000)))
      else
        Except.ok none
    else if sensor = "BVP" then
      let available_dev_1 : List String :=
        ["bioplux", "bioplux_exp", "biosignalsplux", "rachimeter", "channeller",
         "swifter", "ddme_openbanplux"]
      if _h : opt = "uA" then
        let vcc : ℝ := 3.0
        let offset_gain : Option (ℝ × ℝ) :=
          if device ∈ available_dev_1 then some (0, 0.190060606)
          else none
        match offset_gain with
        | none =>
            Except.error "The output specified unit does not have a defined transfer function for the used device."
        | some (offset, gain) =>
            Except.ok (some (raw_signal.map
              (fun x => (x * vcc / (2:ℝ)^res - vcc * offset) / gain)))
      else if _h : opt = "A" then
        match raw_to_phy sensor device raw_signal (PyNum.int res) "uA" with
        | Except.error e => Except.error e
        | Except.ok none => Except.ok none
        | Except.ok (some ua) => Except.ok (some (ua.map (fun v => v * 1e-6)))
      else
        Except.ok none
    else if sensor ∈ ["SpO2.ARM", "SpO2.HEAD", "SpO2.FING"] then
      let available_dev_1 : List String := ["channeller", "biosignalsplux", "swifter"]
      let scale_factor : ℝ :=
        if sensor = "SpO2.ARM" ∨ sensor = "SpO2.FING" then 1.2
        else 0.15
      if _h : opt = "uA" then
        if device ∈ available_dev_1 then
          Except.ok (some (raw_signal.map (fun x => scale_factor * (x / (2:ℝ)^res))))
        else
          Except.error "The output specified unit does not have a defined transfer function for the used device."
      else if _h : opt = "A" then
        match raw_to_phy sensor device raw_signal (PyNum.int res) "uA" with
        | Except.error e => Except.error e
        | Except.ok none => Except.ok none
        | Except.ok (some ua) => Except.ok (some (ua.map (fun v => v * 1e-6)))
      else
        Except.ok none
    else
      Except.error "The specified sensor is not valid or for now is not available for unit conversion."
termination_by
  (match opt with
   | "C" => 2
   | "K" => 1
   | "V" => 1
   | "A" => 1
   | _ => 0 : Nat)
decreasing_by
  all_goals simp_all

/-- Embedding of `numpy.linspace(start, stop, num)` with the default
`endpoint=True`: `num` evenly spaced values from `start` to `stop` inclusive
(`[start]` when `num = 1`, empty when `num = 0`). -/
noncomputable def linspace (start stop : ℝ) (num : ℕ) : List ℝ :=
  if num = 1 then [start]
  else (List.range num).map
    (fun i : ℕ => start + (i : ℝ) * (stop - start) / ((num : ℝ) - 1))

/-- Embedding of `conversion.generate_time(signal, sample_rate)`: the length of
the signal divided by the sampling rate gives the end of the time axis, and
`numpy.linspace` spreads `len(signal)` points over `[0, end]`.  A zero
`sample_rate` makes the Python division `nbr_of_samples / sample_rate` raise a
`ZeroDivisionError`. -/
noncomputable def generate_time (signal : List ℝ) (sample_rate : ℤ) :
    Except String (List ℝ) :=
  let nbr_of_samples := signal.length
  if sample_rate = 0 then
    Except.error "ZeroDivisionError: division by zero"
  else
    let end_of_time : ℝ := (nbr_of_samples : ℝ) / (sample_rate : ℝ)
    Except.ok (linspace 0 end_of_time nbr_of_samples)

/-- The PLUX device family shared by the TEMP/EMG/ECG/BVP dispatch tables
(`available_dev_1` in the source). -/
def plux_devices : List String :=
  ["bioplux", "bioplux_exp", "biosignalsplux", "rachimeter", "channeller",
   "swifter", "ddme_openbanplux"]

lemma raw_to_phy_float_res (sensor device : String) (raw : List ℝ) (x : ℝ)
    (opt : String) :
    raw_to_phy sensor device raw (PyNum.float x) opt =
      Except.error "The specified resolution needs to be an integer." := by
  rw [raw_to_phy]

lemma temp_Ohm_eq (device : String) (hd : device ∈ plux_devices) (raw : List ℝ)
    (r : ℤ) :
    raw_to_phy "TEMP" device raw (PyNum.int r) "Ohm" =
      Except.ok (some (raw.map (fun x => (1e4 * x) / ((2:ℝ)^r - x)))) := by
  simp only [plux_devices, List.mem_cons, List.not_mem_nil, or_false] at hd
  rw [raw_to_phy]
  simp [hd]

lemma temp_K_eq (device : String) (hd : device ∈ plux_devices) (raw : List ℝ)
    (r : ℤ) :
    raw_to_phy "TEMP" device raw (PyNum.int r) "K" =
      Except.ok (some (raw.map (fun x =>
        1 / (1.12764514e-3 +
             2.34282709e-4 * Real.log ((1e4 * x) / ((2:ℝ)^r - x)) +
             8.77303013e-8 * (Real.log ((1e4 * x) / ((2:ℝ)^r - x))) ^ 3)))) := by
  rw [raw_to_phy]
  rw [temp_Ohm_eq device hd raw r]
  simp [List.map_map, Function.comp]

lemma temp_C_plux_eq (device : String) (hd : device ∈ plux_devices)
    (raw : List ℝ) (r : ℤ) :
    raw_to_phy "TEMP" device raw (PyNum.int r) "C" =
      Except.ok (some (raw.map (fun x =>
        1 / (1.12764514e-3 +
             2.34282709e-4 * Real.log ((1e4 * x) / ((2:ℝ)^r - x)) +
             8.77303013e-8 * (Real.log ((1e4 * x) / ((2:ℝ)^r - x))) ^ 3)
          - 273.15))) := by
  have hd' := hd
  simp only [plux_devices, List.mem_cons, List.not_mem_nil, or_false] at hd'
  rw [raw_to_phy]
  rw [temp_K_eq device hd raw r]
  simp [hd', List.map_map, Function.comp]

lemma emg_mV_plux_eq (device : String) (hd : device ∈ plux_devices)
    (raw : List ℝ) (r : ℤ) :
    raw_to_phy "EMG" device raw (PyNum.int r) "mV" =
      Except.ok (some (raw.map
        (fun x => (x * 3.0 / (2:ℝ)^r - 3.0 * 0.5) / 1))) := by
  simp only [plux_devices, List.mem_cons, List.not_mem_nil, or_false] at hd
  rw [raw_to_phy]
  simp [hd]

lemma emg_mV_bitalino_eq (raw : List ℝ) (r : ℤ) :
    raw_to_phy "EMG" "bitalino" raw (PyNum.int r) "mV" =
      Except.ok (some (raw.map
        (fun x => (x * 3.0 / (2:ℝ)^r - 3.0 * 0.5) / 1.008))) := by
  rw [raw_to_phy]
  simp

lemma emg_mV_rev_riot_eq (device : String)
    (hd : device = "bitalino_rev" ∨ device = "bitalino_riot") (raw : List ℝ)
    (r : ℤ) :
    raw_to_phy "EMG" device raw (PyNum.int r) "mV" =
      Except.ok (some (raw.map
        (fun x => (x * 3.0 / (2:ℝ)^r - 3.0 * 0.5) / 1.009))) := by
  rcases hd with rfl | rfl <;> (rw [raw_to_phy]; simp)

lemma ecg_mV_plux_eq (device : String) (hd : device ∈ plux_devices)
    (raw : List ℝ) (r : ℤ) :
    raw_to_phy "ECG" device raw (PyNum.int r) "mV" =
      Except.ok (some (raw.map
        (fun x => (x * 3.0 / (2:ℝ)^r - 3.0 * 0.5) / 1.019))) := by
  simp only [plux_devices, List.mem_cons, List.not_mem_nil, or_false] at hd
  rw [raw_to_phy]
  simp [hd]

lemma ecg_mV_bitalino_eq (device : String)
    (hd : device = "bitalino" ∨ device = "bitalino_rev" ∨ device = "bitalino_riot")
    (raw : List ℝ) (r : ℤ) :
    raw_to_phy "ECG" device raw (PyNum.int r) "mV" =
      Except.ok (some (raw.map
        (fun x => (x * 3.0 / (2:ℝ)^r - 3.0 * 0.5) / 1.1))) := by
  rcases hd with rfl | rfl | rfl <;> (rw [raw_to_phy]; simp)

lemma emg_ecg_V_eq (sensor : String) (hs : sensor = "EMG" ∨ sensor = "ECG")
    (device : String) (raw : List ℝ) (r : ℤ) (mv : List ℝ)
    (h : raw_to_phy sensor device raw (PyNum.int r) "mV" =
      Except.ok (some mv)) :
    raw_to_phy sensor device raw (PyNum.int r) "V" =
      Except.ok (some (mv.map (fun v => v / 1000))) := by
  rcases hs with rfl | rfl <;> (rw [raw_to_phy]; simp [h])

lemma bvp_uA_eq (device : String) (hd : device ∈ plux_devices) (raw : List ℝ)
    (r : ℤ) :
    raw_to_phy "BVP" device raw (PyNum.int r) "uA" =
      Except.ok (some (raw.map
        (fun x => (x * 3.0 / (2:ℝ)^r - 3.0 * 0) / 0.190060606))) := by
  simp only [plux_devices, List.mem_cons, List.not_mem_nil, or_false] at hd
  rw [raw_to_phy]
  simp [hd]

lemma spo2_uA_eq (sensor : String)
    (hs : sensor = "SpO2.ARM" ∨ sensor = "SpO2.HEAD" ∨ sensor = "SpO2.FING")
    (device : String)
    (hd : device ∈ ["channeller", "biosignalsplux", "swifter"]) (raw : List ℝ)
    (r : ℤ) :
    raw_to_phy sensor device raw (PyNum.int r) "uA" =
      Except.ok (some (raw.map (fun x =>
        (if sensor = "SpO2.ARM" ∨ sensor = "SpO2.FING" then (1.2:ℝ) else 0.15) *
          (x / (2:ℝ)^r)))) := by
  simp only [List.mem_cons, List.not_mem_nil, or_false] at hd
  rcases hs with rfl | rfl | rfl <;> (rw [raw_to_phy]; simp [hd])

lemma bvp_spo2_A_eq (sensor : String)
    (hs : sensor = "BVP" ∨ sensor = "SpO2.ARM" ∨ sensor = "SpO2.HEAD" ∨
      sensor = "SpO2.FING")
    (device : String) (raw : List ℝ) (r : ℤ) (ua : List ℝ)
    (h : raw_to_phy sensor device raw (PyNum.int r) "uA" =
      Except.ok (some ua)) :
    raw_to_phy sensor device raw (PyNum.int r) "A" =
      Except.ok (some (ua.map (fun v => v * 1e-6))) := by
  rcases hs with rfl | rfl | rfl | rfl <;> (rw [raw_to_phy]; simp [h])

lemma temp_bad_unit_eq (device : String) (raw : List ℝ) (r : ℤ) (opt : String)
    (h1 : opt ≠ "Ohm") (h2 : opt ≠ "K") (h3 : opt ≠ "C") :
    raw_to_phy "TEMP" device raw (PyNum.int r) opt =
      Except.error
        "The selected output unit is invalid for the sensor under analysis." := by
  rw [raw_to_phy]
  simp [h1, h2, h3]

lemma emg_ecg_bad_unit_eq (sensor : String)
    (hs : sensor = "EMG" ∨ sensor = "ECG") (device : String) (raw : List ℝ)
    (r : ℤ) (opt : String) (h1 : opt ≠ "mV") (h2 : opt ≠ "V") :
    raw_to_phy sensor device raw (PyNum.int r) opt = Except.ok none := by
  rcases hs with rfl | rfl <;> (rw [raw_to_phy]; simp [h1, h2])

lemma bvp_spo2_bad_unit_eq (sensor : String)
    (hs : sensor = "BVP" ∨ sensor = "SpO2.ARM" ∨ sensor = "SpO2.HEAD" ∨
      sensor = "SpO2.FING")
    (device : String) (raw : List ℝ) (r : ℤ) (opt : String) (h1 : opt ≠ "uA")
    (h2 : opt ≠ "A") :
    raw_to_phy sensor device raw (PyNum.int r) opt = Except.ok none := by
  rcases hs with rfl | rfl | rfl | rfl <;> (rw [raw_to_phy]; simp [h1, h2])

lemma generate_time_ok (signal : List ℝ) (sample_rate : ℤ)
    (h : sample_rate ≠ 0) :
    generate_time signal sample_rate =
      Except.ok (linspace 0 ((signal.length : ℝ) / (sample_rate : ℝ))
        signal.length) := by
  simp [generate_time, h]

lemma linspace_of_ne_one (s e : ℝ) (n : ℕ) (h : n ≠ 1) :
    linspace s e n =
      (List.range n).map
        (fun i : ℕ => s + (i : ℝ) * (e - s) / ((n : ℝ) - 1)) := by
  simp [linspace, h]

/-! ## Claim C1 -/

/-- C1 counterexample: the claim says an unsupported output unit always raises
an error and never yields a `None` result, but for the EMG sensor with the
(unsupported) unit "K" the dispatch chain falls through and `raw_to_phy`
returns Python `None` without raising. -/
theorem C1_returns_none_counterexample :
    raw_to_phy "EMG" "bioplux" [0] (PyNum.int 12) "K" = Except.ok none :=
  emg_ecg_bad_unit_eq "EMG" (Or.inl rfl) "bioplux" [0] 12 "K"
    (by decide) (by decide)

/-- C1 (amended): only the TEMP sensor raises an error on an unsupported
output unit; for EMG, ECG, BVP and the three SpO2 sensors an unsupported
unit makes `raw_to_phy` return `None` to the caller without raising. -/
theorem C1_unsupported_unit_behavior :
    (∀ (device : String) (raw : List ℝ) (r : ℤ) (opt : String),
      opt ≠ "Ohm" → opt ≠ "K" → opt ≠ "C" →
      raw_to_phy "TEMP" device raw (PyNum.int r) opt =
        Except.error
          "The selected output unit is invalid for the sensor under analysis.") ∧
    (∀ (sensor : String), sensor = "EMG" ∨ sensor = "ECG" →
      ∀ (device : String) (raw : List ℝ) (r : ℤ) (opt : String),
        opt ≠ "mV" → opt ≠ "V" →
        raw_to_phy sensor device raw (PyNum.int r) opt = Except.ok none) ∧
    (∀ (sensor : String),
      sensor = "BVP" ∨ sensor = "SpO2.ARM" ∨ sensor = "SpO2.HEAD" ∨
        sensor = "SpO2.FING" →
      ∀ (device : String) (raw : List ℝ) (r : ℤ) (opt : String),
        opt ≠ "uA" → opt ≠ "A" →
        raw_to_phy sensor device raw (PyNum.int r) opt = Except.ok none) :=
  ⟨fun device raw r opt h1 h2 h3 => temp_bad_unit_eq device raw r opt h1 h2 h3,
   fun sensor hs device raw r opt h1 h2 =>
     emg_ecg_bad_unit_eq sensor hs device raw r opt h1 h2,
   fun sensor hs device raw r opt h1 h2 =>
     bvp_spo2_bad_unit_eq sensor hs device raw r opt h1 h2⟩

/-- C1 witness: concrete instances of the amended statement. -/
theorem C1_unsupported_unit_witness :
    raw_to_phy "TEMP" "bioplux" [0] (PyNum.int 12) "mV" =
      Except.error
        "The selected output unit is invalid for the sensor under analysis." ∧
    raw_to_phy "ECG" "bioplux" [0] (PyNum.int 12) "Ohm" = Except.ok none ∧
    raw_to_phy "BVP" "bioplux" [0] (PyNum.int 12) "mV" = Except.ok none :=
  ⟨C1_unsupported_unit_behavior.1 "bioplux" [0] 12 "mV"
      (by decide) (by decide) (by decide),
   C1_unsupported_unit_behavior.2.1 "ECG" (Or.inr rfl) "bioplux" [0] 12 "Ohm"
      (by decide) (by decide),
   C1_unsupported_unit_behavior.2.2 "BVP" (Or.inl rfl) "bioplux" [0] 12 "mV"
      (by decide) (by decide)⟩

/-! ## Claim C2 -/

/-- C2: for TEMP with any PLUX-family device, on inputs where both
conversions succeed, the Celsius output equals the Kelvin output of the same
inputs minus 273.15, elementwise (for PLUX devices both always succeed). -/
theorem C2_celsius_eq_kelvin_minus_273_15 (device : String)
    (hd : device ∈ plux_devices) (raw : List ℝ) (r : ℤ) :
    ∃ ks, raw_to_phy "TEMP" device raw (PyNum.int r) "K" =
        Except.ok (some ks) ∧
      raw_to_phy "TEMP" device raw (PyNum.int r) "C" =
        Except.ok (some (ks.map (fun k => k - 273.15))) := by
  refine ⟨_, temp_K_eq device hd raw r, ?_⟩
  rw [temp_C_plux_eq device hd raw r]
  simp [List.map_map, Function.comp]

/-- C2 witness: concrete instance on device "bioplux". -/
theorem C2_celsius_kelvin_witness :
    ∃ ks, raw_to_phy "TEMP" "bioplux" [1] (PyNum.int 1) "K" =
        Except.ok (some ks) ∧
      raw_to_phy "TEMP" "bioplux" [1] (PyNum.int 1) "C" =
        Except.ok (some (ks.map (fun k => k - 273.15))) :=
  C2_celsius_eq_kelvin_minus_273_15 "bioplux" (by simp [plux_devices]) [1] 1

/-! ## Claim C3 -/

/-- C3: whenever the primitive conversion succeeds, for EMG and ECG the V
output is the mV output divided by 1000 elementwise, and for BVP and each
SpO2 sensor the A output is the uA output times 1e-6 elementwise. -/
theorem C3_scale_consistency :
    (∀ (sensor : String), sensor = "EMG" ∨ sensor = "ECG" →
      ∀ (device : String) (raw : List ℝ) (r : ℤ) (mv : List ℝ),
        raw_to_phy sensor device raw (PyNum.int r) "mV" =
          Except.ok (some mv) →
        raw_to_phy sensor device raw (PyNum.int r) "V" =
          Except.ok (some (mv.map (fun v => v / 1000)))) ∧
    (∀ (sensor : String),
      sensor = "BVP" ∨ sensor = "SpO2.ARM" ∨ sensor = "SpO2.HEAD" ∨
        sensor = "SpO2.FING" →
      ∀ (device : String) (raw : List ℝ) (r : ℤ) (ua : List ℝ),
        raw_to_phy sensor device raw (PyNum.int r) "uA" =
          Except.ok (some ua) →
        raw_to_phy sensor device raw (PyNum.int r) "A" =
          Except.ok (some (ua.map (fun v => v * 1e-6)))) :=
  ⟨fun sensor hs device raw r mv h => emg_ecg_V_eq sensor hs device raw r mv h,
   fun sensor hs device raw r ua h => bvp_spo2_A_eq sensor hs device raw r ua h⟩

/-- C3 witness: concrete instances on device "bioplux". -/
theorem C3_scale_consistency_witness :
    raw_to_phy "EMG" "bioplux" [0] (PyNum.int 12) "V" =
      Except.ok (some
        ([((0:ℝ) * 3.0 / (2:ℝ)^(12:ℤ) - 3.0 * 0.5) / 1].map
          (fun v => v / 1000))) ∧
    raw_to_phy "BVP" "bioplux" [0] (PyNum.int 12) "A" =
      Except.ok (some
        ([((0:ℝ) * 3.0 / (2:ℝ)^(12:ℤ) - 3.0 * 0) / 0.190060606].map
          (fun v => v * 1e-6))) :=
  ⟨C3_scale_consistency.1 "EMG" (Or.inl rfl) "bioplux" [0] 12 _
      (emg_mV_plux_eq "bioplux" (by simp [plux_devices]) [0] 12),
   C3_scale_consistency.2 "BVP" (Or.inl rfl) "bioplux" [0] 12 _
      (bvp_uA_eq "bioplux" (by simp [plux_devices]) [0] 12)⟩

/-! ## Claim C4 -/

/-- C4 counterexample: the claimed approximate outputs `[-1.4720, 0.0015,
1.4746]` for `raw_to_phy("ECG", "bioplux", [0, 2048, 4095], 12, "mV")` are
wrong in the second and third entries: the exact outputs are
`[-1500/1019, 0, 6141000/4173824]`, whose last two entries differ from the
claimed values by more than 1e-3. -/
theorem C4_ecg_example_counterexample :
    raw_to_phy "ECG" "bioplux" [0, 2048, 4095] (PyNum.int 12) "mV" =
      Except.ok (some [-(1500/1019 : ℝ), 0, 6141000/4173824]) ∧
    ¬ |(0 : ℝ) - 0.0015| < 1e-3 ∧
    ¬ |(6141000/4173824 : ℝ) - 1.4746| < 1e-3 := by
  refine ⟨?_, ?_, ?_⟩
  · rw [ecg_mV_plux_eq "bioplux" (by simp [plux_devices]) [0, 2048, 4095] 12]
    norm_num
  · rw [abs_lt]; norm_num
  · rw [abs_lt]; norm_num

/-- C4 (amended): for ECG with any PLUX-family device, unit mV, integer
resolution r and any raw sample list, each output sample equals
`(raw × 3.0 / 2^r − 3.0 × 0.5) / 1.019`; for device "bioplux", raw samples
`[0, 2048, 4095]` and resolution 12 the output is approximately
`[-1.4720, 0.0000, 1.4713]`. -/
theorem C4_ecg_mV_formula (device : String) (hd : device ∈ plux_devices)
    (r : ℤ) (raw : List ℝ) :
    raw_to_phy "ECG" device raw (PyNum.int r) "mV" =
      Except.ok (some (raw.map
        (fun x => (x * 3.0 / (2:ℝ)^r - 3.0 * 0.5) / 1.019))) ∧
    ∃ o0 o1 o2,
      raw_to_phy "ECG" "bioplux" [0, 2048, 4095] (PyNum.int 12) "mV" =
        Except.ok (some [o0, o1, o2]) ∧
      |o0 - (-1.4720)| < 5e-5 ∧ o1 = 0 ∧ |o2 - 1.4713| < 5e-5 := by
  refine ⟨ecg_mV_plux_eq device hd raw r, _, _, _,
    ecg_mV_plux_eq "bioplux" (by simp [plux_devices]) [0, 2048, 4095] 12,
    ?_, ?_, ?_⟩
  · rw [abs_lt]; constructor <;> norm_num
  · norm_num
  · rw [abs_lt]; constructor <;> norm_num

/-- C4 witness: the amended statement instantiated on device "bioplux". -/
theorem C4_ecg_mV_formula_witness :
    raw_to_phy "ECG" "bioplux" [0, 2048, 4095] (PyNum.int 12) "mV" =
      Except.ok (some ([(0:ℝ), 2048, 4095].map
        (fun x => (x * 3.0 / (2:ℝ)^(12:ℤ) - 3.0 * 0.5) / 1.019))) ∧
    ∃ o0 o1 o2,
      raw_to_phy "ECG" "bioplux" [0, 2048, 4095] (PyNum.int 12) "mV" =
        Except.ok (some [o0, o1, o2]) ∧
      |o0 - (-1.4720)| < 5e-5 ∧ o1 = 0 ∧ |o2 - 1.4713| < 5e-5 :=
  C4_ecg_mV_formula "bioplux" (by simp [plux_devices]) 12 [0, 2048, 4095]

/-! ## Claim C5 -/

/-- C5: for TEMP with any PLUX-family device, the Ohm output is
`(1e4 × raw) / (2^r − raw)` elementwise, and the Kelvin output is
`1 / (a0 + a1·ln R + a2·ln R ^ 3)` elementwise where `R` is the Ohm output of
the same sample, with `a0 = 1.12764514e-3`, `a1 = 2.34282709e-4`,
`a2 = 8.77303013e-8`. -/
theorem C5_temp_ohm_and_kelvin (device : String) (hd : device ∈ plux_devices)
    (raw : List ℝ) (r : ℤ) :
    raw_to_phy "TEMP" device raw (PyNum.int r) "Ohm" =
      Except.ok (some (raw.map (fun x => (1e4 * x) / ((2:ℝ)^r - x)))) ∧
    raw_to_phy "TEMP" device raw (PyNum.int r) "K" =
      Except.ok (some (raw.map (fun x =>
        1 / (1.12764514e-3 +
             2.34282709e-4 * Real.log ((1e4 * x) / ((2:ℝ)^r - x)) +
             8.77303013e-8 * (Real.log ((1e4 * x) / ((2:ℝ)^r - x))) ^ 3)))) :=
  ⟨temp_Ohm_eq device hd raw r, temp_K_eq device hd raw r⟩

/-- C5 witness: concrete instance on device "bioplux". -/
theorem C5_temp_ohm_and_kelvin_witness :
    raw_to_phy "TEMP" "bioplux" [1] (PyNum.int 1) "Ohm" =
      Except.ok (some ([(1:ℝ)].map (fun x => (1e4 * x) / ((2:ℝ)^(1:ℤ) - x)))) ∧
    raw_to_phy "TEMP" "bioplux" [1] (PyNum.int 1) "K" =
      Except.ok (some ([(1:ℝ)].map (fun x =>
        1 / (1.12764514e-3 +
             2.34282709e-4 * Real.log ((1e4 * x) / ((2:ℝ)^(1:ℤ) - x)) +
             8.77303013e-8 *
               (Real.log ((1e4 * x) / ((2:ℝ)^(1:ℤ) - x))) ^ 3)))) :=
  C5_temp_ohm_and_kelvin "bioplux" (by simp [plux_devices]) [1] 1

/-! ## Claim C6 -/

/-- C6 counterexample: on a 1-sample signal with rate 1 the claim demands the
last timestamp be `1/1 = 1`, but `generate_time` (via `numpy.linspace` with a
single point) returns `[0]`. -/
theorem C6_single_sample_counterexample :
    generate_time [(37:ℝ)] 1 = Except.ok [0] ∧
    (0:ℝ) ≠ (([(37:ℝ)].length : ℝ) / ((1:ℤ) : ℝ)) := by
  constructor
  · simp [generate_time, linspace]
  · norm_num

/-- C6 (amended): for every input signal of length `n ≥ 2` and positive
sample rate, `generate_time` returns exactly `n` timestamps with `i`-th value
`i · (n / rate) / (n − 1)`: first element 0, last element `n / rate`,
strictly increasing, with uniform consecutive spacing
`(n / rate) / (n − 1)`.  (For `n = 1` the single timestamp is 0, not
`1 / rate`.) -/
theorem C6_generate_time_uniform (signal : List ℝ) (sample_rate : ℤ)
    (hn : 2 ≤ signal.length) (hr : 0 < sample_rate) :
    ∃ ts, generate_time signal sample_rate = Except.ok ts ∧
      ts.length = signal.length ∧
      (∀ i, (hi : i < ts.length) →
        ts.get ⟨i, hi⟩ =
          (i : ℝ) * ((signal.length : ℝ) / (sample_rate : ℝ)) /
            ((signal.length : ℝ) - 1)) ∧
      (∀ (h0 : 0 < ts.length), ts.get ⟨0, h0⟩ = 0) ∧
      (∀ (h : ts ≠ []),
        ts.getLast h = (signal.length : ℝ) / (sample_rate : ℝ)) ∧
      List.Pairwise (fun u v => u < v) ts ∧
      (∀ i, (hi : i + 1 < ts.length) →
        ts.get ⟨i + 1, hi⟩ - ts.get ⟨i, Nat.lt_of_succ_lt hi⟩ =
          ((signal.length : ℝ) / (sample_rate : ℝ)) /
            ((signal.length : ℝ) - 1)) := by
  have hne : sample_rate ≠ 0 := by omega
  have hn1 : signal.length ≠ 1 := by omega
  have hnR : (2:ℝ) ≤ (signal.length : ℝ) := by exact_mod_cast hn
  have hc : (0:ℝ) < (signal.length : ℝ) - 1 := by linarith
  have hc' : (signal.length : ℝ) - 1 ≠ 0 := ne_of_gt hc
  have hrR : (0:ℝ) < (sample_rate : ℝ) := by exact_mod_cast hr
  have hE : (0:ℝ) < (signal.length : ℝ) / (sample_rate : ℝ) :=
    div_pos (by linarith) hrR
  set ts : List ℝ := (List.range signal.length).map
      (fun i : ℕ => 0 + (i : ℝ) *
        ((signal.length : ℝ) / (sample_rate : ℝ) - 0) /
          ((signal.length : ℝ) - 1)) with hts
  have hgetE : ∀ i, (hi : i < ts.length) →
      ts[i] =
        (i : ℝ) * ((signal.length : ℝ) / (sample_rate : ℝ)) /
          ((signal.length : ℝ) - 1) := by
    intro i hi
    simp only [hts, List.getElem_map, List.getElem_range]
    ring
  have hget : ∀ i, (hi : i < ts.length) →
      ts.get ⟨i, hi⟩ =
        (i : ℝ) * ((signal.length : ℝ) / (sample_rate : ℝ)) /
          ((signal.length : ℝ) - 1) := by
    intro i hi
    simp only [List.get_eq_getElem]
    exact hgetE i hi
  have hlen : ts.length = signal.length := by simp [hts]
  refine ⟨ts, ?_, hlen, hget, ?_, ?_, ?_, ?_⟩
  · rw [generate_time_ok signal sample_rate hne,
      linspace_of_ne_one _ _ _ hn1]
  · intro h0
    rw [hget 0 h0]
    simp
  · intro h
    rw [List.getLast_eq_getElem,
      hgetE (ts.length - 1) (by omega), hlen]
    have hcast : ((signal.length - 1 : ℕ) : ℝ) = (signal.length : ℝ) - 1 := by
      have h1 : 1 ≤ signal.length := by omega
      push_cast [h1]
      ring
    rw [hcast]
    field_simp
    ring
  · rw [hts, List.pairwise_map]
    refine (List.pairwise_lt_range signal.length).imp ?_
    intro u v huv
    have h1 : (u:ℝ) < (v:ℝ) := by exact_mod_cast huv
    have hE0 : (0:ℝ) < (signal.length : ℝ) / (sample_rate : ℝ) - 0 := by
      simpa using hE
    gcongr
  · intro i hi
    rw [hget (i + 1) hi, hget i (Nat.lt_of_succ_lt hi)]
    push_cast
    field_simp
    ring

/-- C6 witness: the amended statement instantiated on a 1000-sample signal at
rate 1000 (first value 0, last value 1000/1000 = 1, spacing
(1000/1000)/999). -/
theorem C6_generate_time_witness :
    ∃ ts, generate_time (List.replicate 1000 (0:ℝ)) 1000 = Except.ok ts ∧
      ts.length = (List.replicate 1000 (0:ℝ)).length ∧
      (∀ i, (hi : i < ts.length) →
        ts.get ⟨i, hi⟩ =
          (i : ℝ) * (((List.replicate 1000 (0:ℝ)).length : ℝ) /
            ((1000:ℤ) : ℝ)) /
            (((List.replicate 1000 (0:ℝ)).length : ℝ) - 1)) ∧
      (∀ (h0 : 0 < ts.length), ts.get ⟨0, h0⟩ = 0) ∧
      (∀ (h : ts ≠ []),
        ts.getLast h =
          ((List.replicate 1000 (0:ℝ)).length : ℝ) / ((1000:ℤ) : ℝ)) ∧
      List.Pairwise (fun u v => u < v) ts ∧
      (∀ i, (hi : i + 1 < ts.length) →
        ts.get ⟨i + 1, hi⟩ - ts.get ⟨i, Nat.lt_of_succ_lt hi⟩ =
          (((List.replicate 1000 (0:ℝ)).length : ℝ) / ((1000:ℤ) : ℝ)) /
            (((List.replicate 1000 (0:ℝ)).length : ℝ) - 1)) :=
  C6_generate_time_uniform (List.replicate 1000 (0:ℝ)) 1000
    (by rw [List.length_replicate]; norm_num) (by norm_num)

/-! ## Claim C7 -/

/-- C7 counterexample: with the negative rate −1 on a 2-sample signal,
`generate_time` does not fail at all: it returns the (decreasing) timestamp
list `[0, −2]`. -/
theorem C7_negative_rate_counterexample :
    generate_time [(0:ℝ), 0] (-1) = Except.ok [0, -2] := by
  rw [generate_time_ok _ _ (by decide), linspace_of_ne_one _ _ _ (by decide)]
  norm_num [List.range_succ]

/-- C7 (amended): `generate_time` performs no sample-rate validation: for
every nonzero rate (negative rates included) it returns a timestamp list,
and only rate 0 fails, with a division-by-zero error rather than an
`InvalidSampleRate` error. -/
theorem C7_no_sample_rate_validation (signal : List ℝ) (sample_rate : ℤ) :
    (sample_rate ≠ 0 →
      ∃ ts, generate_time signal sample_rate = Except.ok ts) ∧
    generate_time signal 0 =
      Except.error "ZeroDivisionError: division by zero" := by
  refine ⟨fun h => ⟨_, generate_time_ok signal sample_rate h⟩, ?_⟩
  simp [generate_time]

/-- C7 witness: concrete instances of the amended statement. -/
theorem C7_no_sample_rate_validation_witness :
    (∃ ts, generate_time [(0:ℝ), 0] (-1) = Except.ok ts) ∧
    generate_time [(0:ℝ), 0] 0 =
      Except.error "ZeroDivisionError: division by zero" :=
  ⟨(C7_no_sample_rate_validation [(0:ℝ), 0] (-1)).1 (by decide),
   (C7_no_sample_rate_validation [(0:ℝ), 0] 0).2⟩

/-! ## Claim C8 -/

/-- C8 counterexample: resolution 0 is integral but not positive, and the
claim demands it be rejected; `raw_to_phy` accepts it and performs the
arithmetic (with `2^0 = 1`), returning a result instead of an error. -/
theorem C8_nonpositive_resolution_counterexample :
    (0:ℤ) ≤ 0 ∧
    raw_to_phy "ECG" "bioplux" [0] (PyNum.int 0) "mV" =
      Except.ok (some [-(1500/1019 : ℝ)]) := by
  refine ⟨le_refl 0, ?_⟩
  rw [ecg_mV_plux_eq "bioplux" (by simp [plux_devices]) [0] 0]
  norm_num

/-- C8 (amended): `raw_to_phy` rejects every non-`int` resolution with an
error before performing any arithmetic on the samples, but any integer
resolution — zero and negative values included — is accepted and used as the
exponent in the transfer function. -/
theorem C8_resolution_validation :
    (∀ (sensor device : String) (raw : List ℝ) (x : ℝ) (opt : String),
      raw_to_phy sensor device raw (PyNum.float x) opt =
        Except.error "The specified resolution needs to be an integer.") ∧
    (∀ z : ℤ, z ≤ 0 → ∀ raw : List ℝ,
      raw_to_phy "ECG" "bioplux" raw (PyNum.int z) "mV" =
        Except.ok (some (raw.map
          (fun v => (v * 3.0 / (2:ℝ)^z - 3.0 * 0.5) / 1.019)))) :=
  ⟨fun sensor device raw x opt => raw_to_phy_float_res sensor device raw x opt,
   fun z _ raw => ecg_mV_plux_eq "bioplux" (by simp [plux_devices]) raw z⟩

/-- C8 witness: concrete instances (a float resolution is rejected; the
negative integer resolution −3 is accepted). -/
theorem C8_resolution_validation_witness :
    raw_to_phy "ECG" "bioplux" [0] (PyNum.float 12.5) "mV" =
      Except.error "The specified resolution needs to be an integer." ∧
    raw_to_phy "ECG" "bioplux" [0] (PyNum.int (-3)) "mV" =
      Except.ok (some ([(0:ℝ)].map
        (fun v => (v * 3.0 / (2:ℝ)^(-3:ℤ) - 3.0 * 0.5) / 1.019))) :=
  ⟨C8_resolution_validation.1 "ECG" "bioplux" [0] 12.5 "mV",
   C8_resolution_validation.2 (-3) (by decide) [0]⟩

/-! ## Claim C9 -/

lemma mV_formula_strict_mono (g : ℝ) (hg : 0 < g) (r : ℤ) (x y : ℝ)
    (hxy : x < y) :
    (x * 3.0 / (2:ℝ)^r - 3.0 * 0.5) / g <
      (y * 3.0 / (2:ℝ)^r - 3.0 * 0.5) / g := by
  gcongr

/-- C9: for fixed sensor (EMG or ECG), fixed supported device and fixed
positive integer resolution, the mV conversion is strictly increasing in the
raw sample value. -/
theorem C9_mV_strictly_increasing (sensor device : String)
    (hs : sensor = "EMG" ∨ sensor = "ECG")
    (hd : device ∈
      plux_devices ++ ["bitalino", "bitalino_rev", "bitalino_riot"])
    (r : ℤ) (_hr : 0 < r) (x y a b : ℝ) (hxy : x < y)
    (ha : raw_to_phy sensor device [x] (PyNum.int r) "mV" =
      Except.ok (some [a]))
    (hb : raw_to_phy sensor device [y] (PyNum.int r) "mV" =
      Except.ok (some [b])) :
    a < b := by
  rw [List.mem_append] at hd
  rcases hs with rfl | rfl
  · rcases hd with hd | hd
    · rw [emg_mV_plux_eq device hd [x] r] at ha
      rw [emg_mV_plux_eq device hd [y] r] at hb
      simp only [List.map_cons, List.map_nil, Except.ok.injEq,
        Option.some.injEq, List.cons.injEq, and_true] at ha hb
      rw [← ha, ← hb]
      exact mV_formula_strict_mono 1 (by norm_num) r x y hxy
    · simp only [List.mem_cons, List.not_mem_nil, or_false] at hd
      rcases hd with rfl | rfl | rfl
      · rw [emg_mV_bitalino_eq [x] r] at ha
        rw [emg_mV_bitalino_eq [y] r] at hb
        simp only [List.map_cons, List.map_nil, Except.ok.injEq,
          Option.some.injEq, List.cons.injEq, and_true] at ha hb
        rw [← ha, ← hb]
        exact mV_formula_strict_mono 1.008 (by norm_num) r x y hxy
      · rw [emg_mV_rev_riot_eq _ (Or.inl rfl) [x] r] at ha
        rw [emg_mV_rev_riot_eq _ (Or.inl rfl) [y] r] at hb
        simp only [List.map_cons, List.map_nil, Except.ok.injEq,
          Option.some.injEq, List.cons.injEq, and_true] at ha hb
        rw [← ha, ← hb]
        exact mV_formula_strict_mono 1.009 (by norm_num) r x y hxy
      · rw [emg_mV_rev_riot_eq _ (Or.inr rfl) [x] r] at ha
        rw [emg_mV_rev_riot_eq _ (Or.inr rfl) [y] r] at hb
        simp only [List.map_cons, List.map_nil, Except.ok.injEq,
          Option.some.injEq, List.cons.injEq, and_true] at ha hb
        rw [← ha, ← hb]
        exact mV_formula_strict_mono 1.009 (by norm_num) r x y hxy
  · rcases hd with hd | hd
    · rw [ecg_mV_plux_eq device hd [x] r] at ha
      rw [ecg_mV_plux_eq device hd [y] r] at hb
      simp only [List.map_cons, List.map_nil, Except.ok.injEq,
        Option.some.injEq, List.cons.injEq, and_true] at ha hb
      rw [← ha, ← hb]
      exact mV_formula_strict_mono 1.019 (by norm_num) r x y hxy
    · simp only [List.mem_cons, List.not_mem_nil, or_false] at hd
      have hd' : device = "bitalino" ∨ device = "bitalino_rev" ∨
          device = "bitalino_riot" := hd
      rw [ecg_mV_bitalino_eq device hd' [x] r] at ha
      rw [ecg_mV_bitalino_eq device hd' [y] r] at hb
      simp only [List.map_cons, List.map_nil, Except.ok.injEq,
        Option.some.injEq, List.cons.injEq, and_true] at ha hb
      rw [← ha, ← hb]
      exact mV_formula_strict_mono 1.1 (by norm_num) r x y hxy

/-- C9 witness: a concrete instance (ECG on "bioplux", raw codes 10 < 20 at
resolution 12). -/
theorem C9_mV_strictly_increasing_witness :
    ((10:ℝ) * 3.0 / (2:ℝ)^(12:ℤ) - 3.0 * 0.5) / 1.019 <
      ((20:ℝ) * 3.0 / (2:ℝ)^(12:ℤ) - 3.0 * 0.5) / 1.019 :=
  C9_mV_strictly_increasing "ECG" "bioplux" (Or.inr rfl)
    (by simp [plux_devices]) 12 (by norm_num) 10 20 _ _ (by norm_num)
    (ecg_mV_plux_eq "bioplux" (by simp [plux_devices]) [10] 12)
    (ecg_mV_plux_eq "bioplux" (by simp [plux_devices]) [20] 12)

/-! ## Claim C10 -/

/-- C10: for TEMP/Ohm on a PLUX-family device with positive integer
resolution, if every raw sample lies in `[0, 2^r)` then every denominator
`2^r − raw` is strictly positive, the conversion succeeds, and every output
sample is non-negative; at a raw sample equal to `2^r` the denominator is
zero. -/
theorem C10_temp_ohm_denominator_safe (device : String)
    (hd : device ∈ plux_devices) (r : ℤ) (_hr : 0 < r) (raw : List ℝ)
    (hraw : ∀ x ∈ raw, 0 ≤ x ∧ x < (2:ℝ)^r) :
    (∀ x ∈ raw, 0 < (2:ℝ)^r - x) ∧
    (∃ out, raw_to_phy "TEMP" device raw (PyNum.int r) "Ohm" =
        Except.ok (some out) ∧ ∀ v ∈ out, 0 ≤ v) ∧
    ((2:ℝ)^r - (2:ℝ)^r = 0) := by
  refine ⟨fun x hx => sub_pos.mpr (hraw x hx).2,
    ⟨_, temp_Ohm_eq device hd raw r, ?_⟩, sub_self _⟩
  intro v hv
  rw [List.mem_map] at hv
  obtain ⟨x, hx, rfl⟩ := hv
  have h0 : (0:ℝ) ≤ x := (hraw x hx).1
  have h1 : (0:ℝ) ≤ 1e4 * x := by positivity
  exact div_nonneg h1 (le_of_lt (sub_pos.mpr (hraw x hx).2))

/-- C10 witness: concrete instance on "bioplux" with raw samples `[0, 5]` at
resolution 12. -/
theorem C10_temp_ohm_denominator_witness :
    (∀ x ∈ [(0:ℝ), 5], 0 < (2:ℝ)^(12:ℤ) - x) ∧
    (∃ out, raw_to_phy "TEMP" "bioplux" [(0:ℝ), 5] (PyNum.int 12) "Ohm" =
        Except.ok (some out) ∧ ∀ v ∈ out, 0 ≤ v) ∧
    ((2:ℝ)^(12:ℤ) - (2:ℝ)^(12:ℤ) = 0) :=
  C10_temp_ohm_denominator_safe "bioplux" (by simp [plux_devices]) 12
    (by norm_num) [(0:ℝ), 5]
    (by
      intro x hx
      simp only [List.mem_cons, List.not_mem_nil, or_false] at hx
      rcases hx with rfl | rfl <;> constructor <;> norm_num)

end Conversion
